import Mathlib

/-!
Verification of the `lazy-exclusive` crate: a single-slot exclusive-access
container (`LazyExclusive<T>` in `src/lib.rs`) with a three-state ownership
state machine (Unlocked / Locked / Poisoned), an access guard (`Mut`), and a
lazily initialized platform-native blocking primitive (`Lock` in `src/lock.rs`).

Shallow embedding notes.
* The container's `UnsafeCell` storage is modelled by explicit state passing:
  each operation that mutates through `&self` returns the updated container.
* Panics (`assert_eq!`, `panic!`) are modelled with `Except String`; the
  container component of a result is the container's contents at the moment
  the operation returns or panics, so "no partial mutation before the panic"
  is a provable statement, mirroring the textual order of writes in the source.
* Crate configuration: the crate's `use-locks` and `std` features are enabled
  together in every blocking-enabled build (the spec folds both into the single
  toggle "blocking support is configured"; `lock.rs` itself uses `std`, and the
  crate's blocking/poisoning tests are gated `all(feature = "use-locks",
  feature = "std")`). `Config.useLocks` models that combined toggle, and
  `Config.platform` models the `target_os = "windows"` / POSIX `cfg` split.
* The access guard `Mut<'a, T>` holds only `source: &'a LazyExclusive<T>`;
  dereferencing forwards to `source.data`. Since containers are threaded
  explicitly, a returned guard is a token `Unit` and `Mut.deref` reads the
  container it references.
-/

/-- The three-valued ownership state, `State` in `src/lib.rs`. -/
inductive State where
  | Unlocked
  | Locked
  | Poisoned
deriving DecidableEq, Repr

/-- Build platform for `src/lock.rs`: `target_os = "windows"` or POSIX-like. -/
inductive Platform where
  | posix
  | windows
deriving DecidableEq, Repr

/-- Crate configuration: `useLocks` is the blocking-support toggle (the
`use-locks` + `std` feature pair, see the module comment), `platform` the
target OS split in `src/lock.rs`. -/
structure Config where
  useLocks : Bool
  platform : Platform
deriving DecidableEq, Repr

/-- The lifecycle state of the blocking primitive, `LockState` in
`src/lock.rs`: `Uninit` models `Uninitialized`, `Inited` models
`Initialized(..)` (holding the native pthread mutex bytes / SRW lock word,
which the embedding keeps opaque). -/
inductive LockState where
  | Uninit
  | Inited
deriving DecidableEq, Repr

/-- A platform-native call made by `src/lock.rs` through the FFI boundary:
`pthread_mutex_init/lock/unlock/destroy` on POSIX,
the SRW-lock init/acquire-exclusive/release-exclusive calls on Windows. -/
inductive PCall where
  | mutexInit
  | mutexLock
  | mutexUnlock
  | mutexDestroy
  | srwInit
  | srwAcquire
  | srwRelease
deriving DecidableEq, Repr

/-- The one-time platform setup call made by `Lock::init`. -/
def Lock.initCall : Platform → PCall
  | .posix => .mutexInit
  | .windows => .srwInit

/-- The platform blocking-acquire call (`pthread_mutex_lock` /
`AcquireSRWLockExclusive`). -/
def Lock.acquireCall : Platform → PCall
  | .posix => .mutexLock
  | .windows => .srwAcquire

/-- The platform release call (`pthread_mutex_unlock` /
`ReleaseSRWLockExclusive`). -/
def Lock.releaseCall : Platform → PCall
  | .posix => .mutexUnlock
  | .windows => .srwRelease

/-- `Lock::lock` in `src/lock.rs`: if the state is `Uninitialized`, call
`init` (one platform init call) and then the platform acquire call; if already
`Initialized`, just the platform acquire call. Returns the new lifecycle state
and the list of platform calls made, in order. -/
def Lock.lock (p : Platform) : LockState → LockState × List PCall
  | .Uninit => (.Inited, [Lock.initCall p, Lock.acquireCall p])
  | .Inited => (.Inited, [Lock.acquireCall p])

/-- `Lock::unlock` in `src/lock.rs`: initializes first if somehow still
uninitialized (the defensive branch), then makes the platform release call. -/
def Lock.unlock (p : Platform) : LockState → LockState × List PCall
  | .Uninit => (.Inited, [Lock.initCall p, Lock.releaseCall p])
  | .Inited => (.Inited, [Lock.releaseCall p])

/-- `Lock::reset` in `src/lock.rs`. On an uninitialized lock: nothing. On an
initialized lock: on POSIX the code runs `std::ptr::drop_in_place` on the
`PTHREAD_MUTEX_T` byte array — a no-op drop of plain bytes, not a platform
call (in particular not `pthread_mutex_destroy`) — and writes
`Uninitialized` back; on Windows the `Initialized` case falls into the
wildcard `_ => ()` arm, so the state is left unchanged and no call is made. -/
def Lock.reset (p : Platform) : LockState → LockState × List PCall
  | .Uninit => (.Uninit, [])
  | .Inited =>
    match p with
    | .posix => (.Uninit, [])
    | .windows => (.Inited, [])

/-- The container `LazyExclusive<T>` in `src/lib.rs`: the `StateCell`, the
stored value, and (in the blocking build) the `Lock`'s lifecycle state. In the
non-blocking build the `lock` field is absent in the source; here it is
carried inert (never read or written when `Config.useLocks = false`). -/
structure LazyExclusive (α : Type) where
  state : State
  data : α
  lock : LockState
deriving DecidableEq, Repr

/-- `LazyExclusive::new`: stores the value, state `Unlocked`, lock
`Lock::new()` which is `Uninitialized`. -/
def LazyExclusive.new (v : α) : LazyExclusive α :=
  { state := State.Unlocked, data := v, lock := LockState.Uninit }

/-- `LazyExclusive::get`: reads the state; on `Unlocked`, writes `Locked`,
then (blocking build only) `self.lock.lock()`, and returns a guard; on
`Locked` or `Poisoned` (the `_` arm) returns `None`. The guard is the token
`()` referencing the returned container. -/
def LazyExclusive.get (cfg : Config) (c : LazyExclusive α) :
    Option Unit × LazyExclusive α :=
  match c.state with
  | State.Unlocked =>
    let c1 : LazyExclusive α := { c with state := State.Locked }
    let c2 : LazyExclusive α :=
      if cfg.useLocks then { c1 with lock := (Lock.lock cfg.platform c1.lock).1 } else c1
    (some (), c2)
  | _ => (none, c)

/-- `Drop for Mut`: writes `Unlocked`; in the blocking build, `unlock`s the
primitive and then, if a panic is propagating (`std::thread::panicking()`),
overwrites the state with `Poisoned`. -/
def LazyExclusive.dropMut (cfg : Config) (panicking : Bool) (c : LazyExclusive α) :
    LazyExclusive α :=
  let c1 : LazyExclusive α := { c with state := State.Unlocked }
  if cfg.useLocks then
    let c2 : LazyExclusive α := { c1 with lock := (Lock.unlock cfg.platform c1.lock).1 }
    if panicking then { c2 with state := State.Poisoned } else c2
  else c1

/-- `Mut`'s `Deref`/`DerefMut` forward to `source.data`; `source` is the
container the guard references. -/
def Mut.deref (source : LazyExclusive α) : α :=
  source.data

/-- `LazyExclusive::swap`: `assert_eq!(self.state.get(), State::Unlocked)` —
on failure the panic happens before any write, so the container is returned
unchanged with the panic. On success: overwrite the data, set the state to
`Unlocked`, and (blocking build) `self.lock.reset()`. -/
def LazyExclusive.swap (cfg : Config) (c : LazyExclusive α) (v : α) :
    Except String Unit × LazyExclusive α :=
  if c.state = State.Unlocked then
    let c1 : LazyExclusive α := { c with data := v, state := State.Unlocked }
    let c2 : LazyExclusive α :=
      if cfg.useLocks then { c1 with lock := (Lock.reset cfg.platform c1.lock).1 } else c1
    (Except.ok (), c2)
  else
    (Except.error "assertion failed: self.state.get() == State::Unlocked", c)

/-- `LazyExclusive::wait` (blocking build only, hence a bare `Platform`
argument): `self.lock.lock()`, then `assert_eq!(state, Unlocked, "The data
was poisoned")` — a panic if the re-read state is not `Unlocked` — then write
`Locked` and return a guard. -/
def LazyExclusive.wait (p : Platform) (c : LazyExclusive α) :
    Except String Unit × LazyExclusive α :=
  let c1 : LazyExclusive α := { c with lock := (Lock.lock p c.lock).1 }
  if c1.state = State.Unlocked then
    (Except.ok (), { c1 with state := State.Locked })
  else
    (Except.error "The data was poisoned", c1)

/-- `LazyExclusive::into_inner`: `Unlocked` yields the stored value,
`Locked` panics with "locked", `Poisoned` panics with "poisoned". The match
performs no writes, so the container component is unchanged in every case. -/
def LazyExclusive.into_inner (c : LazyExclusive α) :
    Except String α × LazyExclusive α :=
  match c.state with
  | State.Unlocked => (Except.ok c.data, c)
  | State.Locked => (Except.error "locked", c)
  | State.Poisoned => (Except.error "poisoned", c)

/-- `Clone for LazyExclusive`: reads the state; `Unlocked` clones the data
into `Self::new(..)` (a fresh container), `Locked`/`Poisoned` panic before
touching anything. -/
def LazyExclusive.clone (c : LazyExclusive α) :
    Except String (LazyExclusive α) × LazyExclusive α :=
  match c.state with
  | State.Unlocked => (Except.ok (LazyExclusive.new c.data), c)
  | State.Locked => (Except.error "locked", c)
  | State.Poisoned => (Except.error "poisoned", c)

/-- An event in a sequence of non-blocking acquisitions and guard drops:
either a call to `get`, or the drop of a live guard (with the panicking
flag of the dropping scope). -/
inductive Op where
  | get
  | dropG (panicking : Bool)
deriving DecidableEq, Repr

/-- A container together with the number of live guards referencing it. -/
structure Sys (α : Type) where
  cont : LazyExclusive α
  guards : Nat
deriving DecidableEq, Repr

/-- One event: `get` runs `LazyExclusive.get` and counts a new live guard
when one is returned; `dropG` drops one live guard (running `Drop for Mut`),
and is a no-op when no guard is alive (no real execution has such an event). -/
def stepOp (cfg : Config) (s : Sys α) : Op → Sys α
  | Op.get =>
    { cont := (LazyExclusive.get cfg s.cont).2,
      guards :=
        if (LazyExclusive.get cfg s.cont).1.isSome then s.guards + 1 else s.guards }
  | Op.dropG p =>
    if s.guards = 0 then s
    else { cont := LazyExclusive.dropMut cfg p s.cont, guards := s.guards - 1 }

/-- Run a sequence of events from a system state. -/
def run (cfg : Config) (ops : List Op) (s : Sys α) : Sys α :=
  ops.foldl (stepOp cfg) s

/-- A freshly constructed container with no live guard. -/
def initSys (v : α) : Sys α :=
  { cont := LazyExclusive.new v, guards := 0 }

/-- The reachable-state invariant: at most one live guard, and while a guard
is alive the state cell reads `Locked`. -/
def SysInv (s : Sys α) : Prop :=
  s.guards ≤ 1 ∧ (s.guards = 1 → s.cont.state = State.Locked)

theorem get_of_unlocked (cfg : Config) (c : LazyExclusive α)
    (h : c.state = State.Unlocked) :
    LazyExclusive.get cfg c =
      (some (),
        if cfg.useLocks then
          { c with state := State.Locked, lock := (Lock.lock cfg.platform c.lock).1 }
        else { c with state := State.Locked }) := by
  cases c
  simp only [LazyExclusive.get]
  simp only at h
  subst h
  by_cases hu : cfg.useLocks <;> simp [hu]

theorem get_of_not_unlocked (cfg : Config) (c : LazyExclusive α)
    (h : c.state ≠ State.Unlocked) :
    LazyExclusive.get cfg c = (none, c) := by
  cases c with
  | mk st d l =>
    cases st with
    | Unlocked => exact absurd rfl h
    | Locked => rfl
    | Poisoned => rfl

theorem get_state_after (cfg : Config) (c : LazyExclusive α) :
    (LazyExclusive.get cfg c).2.state =
      if c.state = State.Unlocked then State.Locked else c.state := by
  cases c with
  | mk st d l =>
    cases st with
    | Unlocked =>
      rw [get_of_unlocked cfg _ rfl]
      by_cases hu : cfg.useLocks <;> simp [hu]
    | Locked => rfl
    | Poisoned => rfl

theorem dropMut_state (cfg : Config) (panicking : Bool) (c : LazyExclusive α) :
    (LazyExclusive.dropMut cfg panicking c).state =
      if cfg.useLocks ∧ panicking then State.Poisoned else State.Unlocked := by
  unfold LazyExclusive.dropMut
  by_cases hu : cfg.useLocks <;> cases panicking <;> simp [hu]

theorem dropMut_data (cfg : Config) (panicking : Bool) (c : LazyExclusive α) :
    (LazyExclusive.dropMut cfg panicking c).data = c.data := by
  unfold LazyExclusive.dropMut
  by_cases hu : cfg.useLocks <;> cases panicking <;> simp [hu]

theorem stepOp_inv (cfg : Config) (s : Sys α) (op : Op)
    (h : SysInv s) : SysInv (stepOp cfg s op) := by
  obtain ⟨h1, h2⟩ := h
  cases op with
  | get =>
    by_cases hs : s.cont.state = State.Unlocked
    · have hg : s.guards = 0 := by
        rcases Nat.lt_or_ge s.guards 1 with hlt | hge
        · omega
        · exfalso
          have : s.guards = 1 := by omega
          rw [h2 this] at hs
          exact absurd hs (by simp)
      have hget := get_of_unlocked cfg s.cont hs
      constructor
      · simp [stepOp, hget, hg]
      · intro _
        simp only [stepOp, hget]
        by_cases hu : cfg.useLocks <;> simp [hu]
    · have hget := get_of_not_unlocked cfg s.cont hs
      constructor
      · simp [stepOp, hget, h1]
      · intro hone
        simp only [stepOp, hget] at hone ⊢
        simp only [Option.isSome_none, if_neg Bool.false_ne_true] at hone
        exact h2 hone
  | dropG p =>
    by_cases hg : s.guards = 0
    · simp only [stepOp, if_pos hg]
      exact ⟨h1, h2⟩
    · simp only [stepOp, if_neg hg]
      constructor
      · show s.guards - 1 ≤ 1
        omega
      · intro hone
        exfalso
        have hone' : s.guards - 1 = 1 := hone
        omega

theorem run_inv (cfg : Config) (ops : List Op) (s : Sys α)
    (h : SysInv s) : SysInv (run cfg ops s) := by
  induction ops generalizing s with
  | nil => exact h
  | cons op ops ih =>
    exact ih (stepOp cfg s op) (stepOp_inv cfg s op h)

theorem initSys_inv (v : α) : SysInv (initSys v) := by
  constructor
  · simp [initSys]
  · intro h
    simp [initSys] at h

/-- C1: single ownership. Starting from a fresh container, after any sequence
of non-blocking acquisitions (`get`) and guard drops, at most one guard is
alive, and while a guard is alive a further `get` returns no guard. -/
theorem single_ownership (cfg : Config) (ops : List Op) (v : α) :
    (run cfg ops (initSys v)).guards ≤ 1 ∧
    ((run cfg ops (initSys v)).guards = 1 →
      (LazyExclusive.get cfg (run cfg ops (initSys v)).cont).1 = none) := by
  have hinv := run_inv cfg ops (initSys v) (initSys_inv v)
  refine ⟨hinv.1, fun hone => ?_⟩
  have hst := hinv.2 hone
  rw [get_of_not_unlocked cfg _ (by rw [hst]; simp)]

/-- C1 witness: one acquisition leaves one live guard, and `get` then
returns no guard. -/
theorem single_ownership_witness :
    (run ⟨false, Platform.posix⟩ [Op.get] (initSys 0)).guards = 1 ∧
    (LazyExclusive.get ⟨false, Platform.posix⟩
      (run ⟨false, Platform.posix⟩ [Op.get] (initSys 0)).cont).1 = none :=
  ⟨by decide,
   (single_ownership ⟨false, Platform.posix⟩ [Op.get] 0).2 (by decide)⟩

/-- C3: `get` reads the state; if it is `Unlocked` it writes `Locked` and
returns a guard referencing this container (the stored value is untouched);
if it is `Locked` or `Poisoned` it returns no guard. -/
theorem get_transition (cfg : Config) (c : LazyExclusive α) :
    (c.state = State.Unlocked →
      (LazyExclusive.get cfg c).1 = some () ∧
      (LazyExclusive.get cfg c).2.state = State.Locked ∧
      (LazyExclusive.get cfg c).2.data = c.data) ∧
    (c.state = State.Locked ∨ c.state = State.Poisoned →
      LazyExclusive.get cfg c = (none, c)) := by
  constructor
  · intro h
    rw [get_of_unlocked cfg c h]
    by_cases hu : cfg.useLocks <;> simp [hu]
  · intro h
    apply get_of_not_unlocked
    rcases h with h | h <;> simp [h]

/-- C3 witness: on an `Unlocked` container `get` hands out a guard and locks;
on a `Locked` container it returns no guard. -/
theorem get_transition_witness :
    ((LazyExclusive.get ⟨true, Platform.posix⟩
        (⟨State.Unlocked, (5 : Nat), LockState.Uninit⟩ : LazyExclusive Nat)).1 = some () ∧
     (LazyExclusive.get ⟨true, Platform.posix⟩
        (⟨State.Unlocked, (5 : Nat), LockState.Uninit⟩ : LazyExclusive Nat)).2.state =
        State.Locked ∧
     (LazyExclusive.get ⟨true, Platform.posix⟩
        (⟨State.Unlocked, (5 : Nat), LockState.Uninit⟩ : LazyExclusive Nat)).2.data = 5) ∧
    LazyExclusive.get ⟨true, Platform.posix⟩
        (⟨State.Locked, (5 : Nat), LockState.Inited⟩ : LazyExclusive Nat) =
      (none, (⟨State.Locked, (5 : Nat), LockState.Inited⟩ : LazyExclusive Nat)) :=
  ⟨(get_transition ⟨true, Platform.posix⟩
      (⟨State.Unlocked, (5 : Nat), LockState.Uninit⟩ : LazyExclusive Nat)).1 rfl,
   (get_transition ⟨true, Platform.posix⟩
      (⟨State.Locked, (5 : Nat), LockState.Inited⟩ : LazyExclusive Nat)).2 (Or.inl rfl)⟩

/-- C10: on a `Locked` or `Poisoned` container, `get` returns no guard and
has no effect at all — the state and the stored value (the whole container,
lock lifecycle included) are exactly what they were before the call. -/
theorem get_frame (cfg : Config) (c : LazyExclusive α)
    (h : c.state = State.Locked ∨ c.state = State.Poisoned) :
    LazyExclusive.get cfg c = (none, c) :=
  get_of_not_unlocked cfg c (by rcases h with h | h <;> simp [h])

/-- C10 witness: `get` on a poisoned container returns no guard and the
container is returned bit-for-bit unchanged. -/
theorem get_frame_witness :
    LazyExclusive.get ⟨false, Platform.posix⟩
        (⟨State.Poisoned, (3 : Nat), LockState.Uninit⟩ : LazyExclusive Nat) =
      (none, (⟨State.Poisoned, (3 : Nat), LockState.Uninit⟩ : LazyExclusive Nat)) :=
  get_frame ⟨false, Platform.posix⟩
    (⟨State.Poisoned, (3 : Nat), LockState.Uninit⟩ : LazyExclusive Nat) (Or.inr rfl)

/-- C5: dropping a guard ends with the container `Unlocked` when the exit is
normal; when a panic is propagating and blocking support is configured the
state ends `Poisoned`; without blocking support a guard dropped during a
panic leaves the container `Unlocked`. -/
theorem guard_drop_state (cfg : Config) (panicking : Bool) (c : LazyExclusive α) :
    (panicking = false →
      (LazyExclusive.dropMut cfg panicking c).state = State.Unlocked) ∧
    (panicking = true → cfg.useLocks = true →
      (LazyExclusive.dropMut cfg panicking c).state = State.Poisoned) ∧
    (cfg.useLocks = false →
      (LazyExclusive.dropMut cfg panicking c).state = State.Unlocked) := by
  refine ⟨fun hp => ?_, fun hp hu => ?_, fun hu => ?_⟩
  · rw [dropMut_state]
    simp [hp]
  · rw [dropMut_state]
    simp [hp, hu]
  · rw [dropMut_state]
    simp [hu]

/-- C5 witness: a normal drop unlocks; a panicking drop poisons in the
blocking build and unlocks in the non-blocking build. -/
theorem guard_drop_state_witness :
    (LazyExclusive.dropMut ⟨true, Platform.posix⟩ false
        (⟨State.Locked, (8 : Nat), LockState.Inited⟩ : LazyExclusive Nat)).state =
      State.Unlocked ∧
    (LazyExclusive.dropMut ⟨true, Platform.posix⟩ true
        (⟨State.Locked, (8 : Nat), LockState.Inited⟩ : LazyExclusive Nat)).state =
      State.Poisoned ∧
    (LazyExclusive.dropMut ⟨false, Platform.posix⟩ true
        (⟨State.Locked, (8 : Nat), LockState.Uninit⟩ : LazyExclusive Nat)).state =
      State.Unlocked :=
  ⟨(guard_drop_state ⟨true, Platform.posix⟩ false
      (⟨State.Locked, (8 : Nat), LockState.Inited⟩ : LazyExclusive Nat)).1 rfl,
   (guard_drop_state ⟨true, Platform.posix⟩ true
      (⟨State.Locked, (8 : Nat), LockState.Inited⟩ : LazyExclusive Nat)).2.1 rfl rfl,
   (guard_drop_state ⟨false, Platform.posix⟩ true
      (⟨State.Locked, (8 : Nat), LockState.Uninit⟩ : LazyExclusive Nat)).2.2 rfl⟩

/-- C9: after the outstanding guard (container `Locked`) is dropped normally,
the container is `Unlocked` with the stored value it had at the drop
(mutations through the guard live in `data`), a subsequent `get` succeeds,
and dereferencing the new guard reads that same value. -/
theorem release_then_reacquire (cfg : Config) (c : LazyExclusive α)
    (_h : c.state = State.Locked) :
    (LazyExclusive.dropMut cfg false c).state = State.Unlocked ∧
    (LazyExclusive.dropMut cfg false c).data = c.data ∧
    (LazyExclusive.get cfg (LazyExclusive.dropMut cfg false c)).1 = some () ∧
    Mut.deref (LazyExclusive.get cfg (LazyExclusive.dropMut cfg false c)).2 = c.data := by
  have hst : (LazyExclusive.dropMut cfg false c).state = State.Unlocked := by
    rw [dropMut_state]
    simp
  have hd := dropMut_data cfg false c
  refine ⟨hst, hd, ?_, ?_⟩
  · rw [get_of_unlocked cfg _ hst]
  · rw [get_of_unlocked cfg _ hst]
    by_cases hu : cfg.useLocks <;> simp [Mut.deref, hu, hd]

/-- C9 witness: dropping the guard of a locked container holding `42` and
calling `get` again succeeds and the new guard reads `42`. -/
theorem release_then_reacquire_witness :
    (LazyExclusive.dropMut ⟨true, Platform.posix⟩ false
        (⟨State.Locked, (42 : Nat), LockState.Inited⟩ : LazyExclusive Nat)).state =
      State.Unlocked ∧
    (LazyExclusive.dropMut ⟨true, Platform.posix⟩ false
        (⟨State.Locked, (42 : Nat), LockState.Inited⟩ : LazyExclusive Nat)).data = 42 ∧
    (LazyExclusive.get ⟨true, Platform.posix⟩
        (LazyExclusive.dropMut ⟨true, Platform.posix⟩ false
          (⟨State.Locked, (42 : Nat), LockState.Inited⟩ : LazyExclusive Nat))).1 =
      some () ∧
    Mut.deref (LazyExclusive.get ⟨true, Platform.posix⟩
        (LazyExclusive.dropMut ⟨true, Platform.posix⟩ false
          (⟨State.Locked, (42 : Nat), LockState.Inited⟩ : LazyExclusive Nat))).2 = 42 :=
  release_then_reacquire ⟨true, Platform.posix⟩
    (⟨State.Locked, (42 : Nat), LockState.Inited⟩ : LazyExclusive Nat) rfl

/-- C8: round-trip — `new v` immediately consumed by `into_inner`, with no
acquisition in between, returns `v` unchanged without a fatal signal (and the
container at return is the fresh one, untouched). -/
theorem new_into_inner_roundtrip (v : α) :
    LazyExclusive.into_inner (LazyExclusive.new v) =
      (Except.ok v, LazyExclusive.new v) := rfl

/-- C4: every misuse call signals fatally with no partial mutation: `swap`
while `Locked` panics on the assert and leaves the container untouched;
`into_inner` while `Locked` or `Poisoned` panics with the container's
contents untouched at the panic point; `clone` while not `Unlocked` panics,
touches nothing, and produces no new container. -/
theorem misuse_fatal_frame (cfg : Config) (c : LazyExclusive α) (v : α) :
    (c.state = State.Locked →
      LazyExclusive.swap cfg c v =
        (Except.error "assertion failed: self.state.get() == State::Unlocked", c)) ∧
    (c.state = State.Locked →
      LazyExclusive.into_inner c = (Except.error "locked", c)) ∧
    (c.state = State.Poisoned →
      LazyExclusive.into_inner c = (Except.error "poisoned", c)) ∧
    (c.state ≠ State.Unlocked →
      (LazyExclusive.clone c).2 = c ∧
      ∃ msg, (LazyExclusive.clone c).1 = Except.error msg) := by
  rcases c with ⟨st, d, l⟩
  refine ⟨fun h => ?_, fun h => ?_, fun h => ?_, fun h => ?_⟩
  · have hst : st = State.Locked := h
    subst hst
    rfl
  · have hst : st = State.Locked := h
    subst hst
    rfl
  · have hst : st = State.Poisoned := h
    subst hst
    rfl
  · have hst : st ≠ State.Unlocked := h
    cases st with
    | Unlocked => exact absurd rfl hst
    | Locked => exact ⟨rfl, "locked", rfl⟩
    | Poisoned => exact ⟨rfl, "poisoned", rfl⟩

/-- C4 witness: the three misuse paths evaluated on a `Locked` and on a
`Poisoned` container. -/
theorem misuse_fatal_frame_witness :
    LazyExclusive.swap ⟨true, Platform.posix⟩
        (⟨State.Locked, (1 : Nat), LockState.Uninit⟩ : LazyExclusive Nat) 9 =
      (Except.error "assertion failed: self.state.get() == State::Unlocked",
       (⟨State.Locked, (1 : Nat), LockState.Uninit⟩ : LazyExclusive Nat)) ∧
    LazyExclusive.into_inner
        (⟨State.Locked, (1 : Nat), LockState.Uninit⟩ : LazyExclusive Nat) =
      (Except.error "locked",
       (⟨State.Locked, (1 : Nat), LockState.Uninit⟩ : LazyExclusive Nat)) ∧
    LazyExclusive.into_inner
        (⟨State.Poisoned, (2 : Nat), LockState.Uninit⟩ : LazyExclusive Nat) =
      (Except.error "poisoned",
       (⟨State.Poisoned, (2 : Nat), LockState.Uninit⟩ : LazyExclusive Nat)) ∧
    ((LazyExclusive.clone
        (⟨State.Locked, (1 : Nat), LockState.Uninit⟩ : LazyExclusive Nat)).2 =
      (⟨State.Locked, (1 : Nat), LockState.Uninit⟩ : LazyExclusive Nat) ∧
     ∃ msg, (LazyExclusive.clone
        (⟨State.Locked, (1 : Nat), LockState.Uninit⟩ : LazyExclusive Nat)).1 =
      Except.error msg) :=
  ⟨(misuse_fatal_frame ⟨true, Platform.posix⟩
      (⟨State.Locked, (1 : Nat), LockState.Uninit⟩ : LazyExclusive Nat) 9).1 rfl,
   (misuse_fatal_frame ⟨true, Platform.posix⟩
      (⟨State.Locked, (1 : Nat), LockState.Uninit⟩ : LazyExclusive Nat) 9).2.1 rfl,
   (misuse_fatal_frame ⟨true, Platform.posix⟩
      (⟨State.Poisoned, (2 : Nat), LockState.Uninit⟩ : LazyExclusive Nat) 9).2.2.1 rfl,
   (misuse_fatal_frame ⟨true, Platform.posix⟩
      (⟨State.Locked, (1 : Nat), LockState.Uninit⟩ : LazyExclusive Nat) 9).2.2.2
      (by decide)⟩

/-- C2: the claim says that on a `Poisoned` container `swap` succeeds without
a fatal signal and returns the state to `Unlocked`. The code's
`assert_eq!(self.state.get(), State::Unlocked)` panics instead and the
container stays `Poisoned` — contradicting the crate's own doc comment on
`swap` ("Panics if the data is already locked": a poisoned container is not
locked) and leaving `Poisoned` permanently unrecoverable, against the spec's
recovery design. This theorem evaluates the embedded `swap` at the failing
input. -/
theorem swap_on_poisoned_panics :
    LazyExclusive.swap ⟨true, Platform.posix⟩
        (⟨State.Poisoned, (7 : Nat), LockState.Uninit⟩ : LazyExclusive Nat) 5 =
      (Except.error "assertion failed: self.state.get() == State::Unlocked",
       (⟨State.Poisoned, (7 : Nat), LockState.Uninit⟩ : LazyExclusive Nat)) := rfl

/-- C6: blocking acquisition `wait` re-reads the state after the lock call:
if it is `Poisoned` the assert panics ("The data was poisoned") and no guard
is returned, the state staying `Poisoned`; if it is `Unlocked` it writes
`Locked` and returns a new guard over the same stored value. -/
theorem wait_poison_check (p : Platform) (c : LazyExclusive α) :
    (c.state = State.Poisoned →
      (LazyExclusive.wait p c).1 = Except.error "The data was poisoned" ∧
      (LazyExclusive.wait p c).2.state = State.Poisoned) ∧
    (c.state = State.Unlocked →
      (LazyExclusive.wait p c).1 = Except.ok () ∧
      (LazyExclusive.wait p c).2.state = State.Locked ∧
      (LazyExclusive.wait p c).2.data = c.data) := by
  rcases c with ⟨st, d, l⟩
  constructor
  · intro h
    have hst : st = State.Poisoned := h
    subst hst
    exact ⟨rfl, rfl⟩
  · intro h
    have hst : st = State.Unlocked := h
    subst hst
    exact ⟨rfl, rfl, rfl⟩

/-- C6 witness: `wait` on a poisoned container panics and hands out no
guard; `wait` on an unlocked container locks it and hands out a guard. -/
theorem wait_poison_check_witness :
    ((LazyExclusive.wait Platform.posix
        (⟨State.Poisoned, (4 : Nat), LockState.Inited⟩ : LazyExclusive Nat)).1 =
      Except.error "The data was poisoned" ∧
     (LazyExclusive.wait Platform.posix
        (⟨State.Poisoned, (4 : Nat), LockState.Inited⟩ : LazyExclusive Nat)).2.state =
      State.Poisoned) ∧
    ((LazyExclusive.wait Platform.posix
        (⟨State.Unlocked, (4 : Nat), LockState.Inited⟩ : LazyExclusive Nat)).1 =
      Except.ok () ∧
     (LazyExclusive.wait Platform.posix
        (⟨State.Unlocked, (4 : Nat), LockState.Inited⟩ : LazyExclusive Nat)).2.state =
      State.Locked ∧
     (LazyExclusive.wait Platform.posix
        (⟨State.Unlocked, (4 : Nat), LockState.Inited⟩ : LazyExclusive Nat)).2.data = 4) :=
  ⟨(wait_poison_check Platform.posix
      (⟨State.Poisoned, (4 : Nat), LockState.Inited⟩ : LazyExclusive Nat)).1 rfl,
   (wait_poison_check Platform.posix
      (⟨State.Unlocked, (4 : Nat), LockState.Inited⟩ : LazyExclusive Nat)).2 rfl⟩

/-- C7 counterexample: on Windows, `swap` on an `Unlocked` container with an
initialized primitive leaves the primitive `Initialized` (the claim says
reset returns it to `Uninitialized` on every platform), and `Lock::reset`
makes no platform call at all — in particular no destroy call. -/
theorem swap_reset_counterexample :
    (LazyExclusive.swap ⟨true, Platform.windows⟩
        (⟨State.Unlocked, (1 : Nat), LockState.Inited⟩ : LazyExclusive Nat) 2).2.lock =
      LockState.Inited ∧
    Lock.reset Platform.windows LockState.Inited = (LockState.Inited, []) ∧
    Lock.reset Platform.posix LockState.Inited = (LockState.Uninit, []) := by
  exact ⟨rfl, rfl, rfl⟩

/-- C7 amended: on a blocking-enabled `Unlocked` container, `swap` succeeds
and applies `Lock::reset` to the primitive; `reset` makes no platform call
(on POSIX it discards the native lock bytes with `drop_in_place`, not the
platform destroy call) and returns the primitive to `Uninitialized` on POSIX,
while on Windows it leaves the primitive's lifecycle state unchanged. -/
theorem swap_reset_amended (cfg : Config) (c : LazyExclusive α) (v : α)
    (h : c.state = State.Unlocked) (hu : cfg.useLocks = true) :
    (LazyExclusive.swap cfg c v).1 = Except.ok () ∧
    (LazyExclusive.swap cfg c v).2.lock = (Lock.reset cfg.platform c.lock).1 ∧
    (Lock.reset cfg.platform c.lock).2 = [] ∧
    (cfg.platform = Platform.posix →
      (LazyExclusive.swap cfg c v).2.lock = LockState.Uninit) ∧
    (cfg.platform = Platform.windows →
      (LazyExclusive.swap cfg c v).2.lock = c.lock) := by
  rcases cfg with ⟨u, p⟩
  have hu' : u = true := hu
  subst hu'
  rcases c with ⟨st, d, l⟩
  have hst : st = State.Unlocked := h
  subst hst
  refine ⟨rfl, rfl, ?_, ?_, ?_⟩
  · cases p <;> cases l <;> rfl
  · intro hp
    have hp' : p = Platform.posix := hp
    subst hp'
    cases l <;> rfl
  · intro hp
    have hp' : p = Platform.windows := hp
    subst hp'
    cases l <;> rfl

/-- C7 amended witness: a POSIX `swap` on an unlocked container with an
initialized primitive succeeds and leaves the primitive `Uninitialized`,
with no platform call made by the reset. -/
theorem swap_reset_amended_witness :
    (LazyExclusive.swap ⟨true, Platform.posix⟩
        (⟨State.Unlocked, (1 : Nat), LockState.Inited⟩ : LazyExclusive Nat) 2).1 =
      Except.ok () ∧
    (LazyExclusive.swap ⟨true, Platform.posix⟩
        (⟨State.Unlocked, (1 : Nat), LockState.Inited⟩ : LazyExclusive Nat) 2).2.lock =
      (Lock.reset Platform.posix LockState.Inited).1 ∧
    (Lock.reset Platform.posix LockState.Inited).2 = [] ∧
    (Platform.posix = Platform.posix →
      (LazyExclusive.swap ⟨true, Platform.posix⟩
        (⟨State.Unlocked, (1 : Nat), LockState.Inited⟩ : LazyExclusive Nat) 2).2.lock =
      LockState.Uninit) ∧
    (Platform.posix = Platform.windows →
      (LazyExclusive.swap ⟨true, Platform.posix⟩
        (⟨State.Unlocked, (1 : Nat), LockState.Inited⟩ : LazyExclusive Nat) 2).2.lock =
      LockState.Inited) :=
  swap_reset_amended ⟨true, Platform.posix⟩
    (⟨State.Unlocked, (1 : Nat), LockState.Inited⟩ : LazyExclusive Nat) 2 rfl rfl
